import Mathlib

/-!
Verification development for the Through the Ages engine
(`src/through-the-ages-engine/src/game/`).

The Python modules are shallowly embedded as Lean structures and pure
functions.  Mutable objects become explicit state passing: a Python method
that mutates `self` and returns a value `v` becomes a Lean function
`State → ... → State × v`.  Python `int` is embedded as `Int` (or `Nat`
where the source value is a count that is only ever incremented /
decremented while positive), Python dicts keyed by strings become
insertion-ordered association lists, and code that raises becomes
`Option` / `Except`.
-/

namespace TTA

/-! ### Association-list helpers

Python `dict` values keyed by strings are embedded as insertion-ordered
association lists with unique keys; `dict[k] += 1` updates the first
(unique) occurrence, `k in dict` is key membership, `dict.get(k, d)` is
lookup with default, and assignment of a fresh key appends. -/

/-- Lookup with default, mirroring Python `d.get(k, default)`. -/
def alistGetD (l : List (String × Nat)) (k : String) (d : Nat) : Nat :=
  match l with
  | [] => d
  | (k', v) :: rest => if k' = k then v else alistGetD rest k d

/-- Key membership, mirroring Python `k in d`. -/
def alistMem (l : List (String × Nat)) (k : String) : Bool :=
  match l with
  | [] => false
  | (k', _) :: rest => if k' = k then true else alistMem rest k

/-- Increment the first entry with key `k`, mirroring Python `d[k] += 1`. -/
def alistBump (l : List (String × Nat)) (k : String) : List (String × Nat) :=
  match l with
  | [] => []
  | (k', v) :: rest =>
    if k' = k then (k', v + 1) :: rest else (k', v) :: alistBump rest k

/-- Decrement the first entry with key `k`, mirroring Python `d[k] -= 1`
(only ever called by the source when the entry is positive). -/
def alistDrop1 (l : List (String × Nat)) (k : String) : List (String × Nat) :=
  match l with
  | [] => []
  | (k', v) :: rest =>
    if k' = k then (k', v - 1) :: rest else (k', v) :: alistDrop1 rest k

/-- Sum of the values, mirroring Python `sum(d.values())`. -/
def alistSum (l : List (String × Nat)) : Nat :=
  match l with
  | [] => 0
  | (_, v) :: rest => v + alistSum rest

/-! ### Resources (`player_resource_manager.py`)

The six-resource ledger `self.resources` of `PlayerResourceManager`.
The fixed key set `food / material / science / culture / happy /
strength` is embedded as a structure with one `Int` field per key. -/

/-- The per-player resource dictionary of `PlayerResourceManager.__init__`. -/
structure Resources where
  food : Int
  material : Int
  science : Int
  culture : Int
  happy : Int
  strength : Int
deriving Repr, DecidableEq

/-- Initial resources of `PlayerResourceManager.__init__`. -/
def Resources.init : Resources :=
  { food := 2, material := 2, science := 2, culture := 0, happy := 0, strength := 1 }

/-- Pointwise addition, mirroring `PlayerResourceManager.add_resources`
(every key of the argument dict is present in `self.resources`). -/
def Resources.add (r p : Resources) : Resources :=
  { food := r.food + p.food, material := r.material + p.material,
    science := r.science + p.science, culture := r.culture + p.culture,
    happy := r.happy + p.happy, strength := r.strength + p.strength }

/-- The all-zero resource map (Python production dicts start at 0). -/
def Resources.zero : Resources :=
  { food := 0, material := 0, science := 0, culture := 0, happy := 0, strength := 0 }

/-- Membership test for the six resource keys, mirroring Python
`resource in self.resources`. -/
def Resources.hasKey (k : String) : Bool :=
  k = "food" ∨ k = "material" ∨ k = "science" ∨ k = "culture" ∨
  k = "happy" ∨ k = "strength"

/-- Dictionary read `self.resources[k]` (only called on the six keys). -/
def Resources.getKey (r : Resources) (k : String) : Int :=
  if k = "food" then r.food
  else if k = "material" then r.material
  else if k = "science" then r.science
  else if k = "culture" then r.culture
  else if k = "happy" then r.happy
  else if k = "strength" then r.strength
  else 0

/-- Dictionary write `self.resources[k] = v` (only called on the six keys). -/
def Resources.setKey (r : Resources) (k : String) (v : Int) : Resources :=
  if k = "food" then { r with food := v }
  else if k = "material" then { r with material := v }
  else if k = "science" then { r with science := v }
  else if k = "culture" then { r with culture := v }
  else if k = "happy" then { r with happy := v }
  else if k = "strength" then { r with strength := v }
  else r

/-- The six entries of a full resource map in dictionary order, for
passing a complete production dict to `add_resources`. -/
def Resources.toList (r : Resources) : List (String × Int) :=
  [("food", r.food), ("material", r.material), ("science", r.science),
   ("culture", r.culture), ("happy", r.happy), ("strength", r.strength)]

/-- Scale every amount by a worker count, used for
`production[resource] += workers * amount_per_worker`. -/
def Resources.scale (n : Nat) (p : Resources) : Resources :=
  { food := n * p.food, material := n * p.material, science := n * p.science,
    culture := n * p.culture, happy := n * p.happy, strength := n * p.strength }

/-! ### Worker pool (`player_worker_manager.py`) -/

/-- One population group of `yellow_reserves['groups']`: a token count,
an occupied flag, a (negative) per-turn food consumption and the food
cost of the next population increase once the group is the first
unoccupied one. -/
structure YellowGroup where
  tokens : Nat
  occupied : Bool
  consumo : Int
  coste_nuevo : Nat
deriving Repr, DecidableEq

/-- State of `PlayerWorkerManager` (`yellow_reserves`). -/
structure PlayerWorkerManager where
  groups : List YellowGroup
  available_workers : Nat
  technology_workers : List (String × Nat)
deriving Repr, DecidableEq

namespace PlayerWorkerManager

/-- Initial state from `PlayerWorkerManager.__init__` (24 total tokens). -/
def init : PlayerWorkerManager :=
  { groups :=
      [ { tokens := 2, occupied := true, consumo := -1, coste_nuevo := 3 },
        { tokens := 4, occupied := true, consumo := -2, coste_nuevo := 4 },
        { tokens := 2, occupied := true, consumo := -2, coste_nuevo := 4 },
        { tokens := 2, occupied := true, consumo := -3, coste_nuevo := 5 },
        { tokens := 2, occupied := true, consumo := -3, coste_nuevo := 5 },
        { tokens := 2, occupied := true, consumo := -4, coste_nuevo := 7 },
        { tokens := 2, occupied := true, consumo := -4, coste_nuevo := 7 },
        { tokens := 2, occupied := true, consumo := -6, coste_nuevo := 7 } ],
    available_workers := 1,
    technology_workers :=
      [ ("Agriculture", 2), ("Bronze", 2), ("Philosophy", 1), ("Religion", 0) ] }

/-- `has_available_yellow_tokens`: some group is occupied with tokens left. -/
def has_available_yellow_tokens (w : PlayerWorkerManager) : Bool :=
  w.groups.any (fun g => g.occupied && g.tokens > 0)

/-- Group-list part of `_take_yellow_token_from_group`: remove one token
from the first group with `occupied and tokens > 0`.  NOTE: when the
removal empties the group the source executes `group['occupied'] = True`
(leaving the flag set), not `= False`. -/
def takeTokenFromGroups : List YellowGroup → List YellowGroup × Bool
  | [] => ([], false)
  | g :: rest =>
    if g.occupied && g.tokens > 0 then
      (({ g with tokens := g.tokens - 1,
                 occupied := if g.tokens - 1 = 0 then true else g.occupied }) :: rest,
       true)
    else
      let res := takeTokenFromGroups rest
      (g :: res.1, res.2)

/-- `_take_yellow_token_from_group` on the manager state. -/
def take_yellow_token_from_group (w : PlayerWorkerManager) :
    PlayerWorkerManager × Bool :=
  let res := takeTokenFromGroups w.groups
  ({ w with groups := res.1 }, res.2)

/-- `move_yellow_token_to_unemployment`: population increase.  Takes a
token from the first available group and adds it to `available_workers`. -/
def move_yellow_token_to_unemployment (w : PlayerWorkerManager) :
    PlayerWorkerManager × Bool :=
  if ¬ w.has_available_yellow_tokens then (w, false)
  else
    let res := w.take_yellow_token_from_group
    if res.2 then
      ({ res.1 with available_workers := res.1.available_workers + 1 }, true)
    else (res.1, false)

/-- `get_population_cost`: the source returns the constant 2
("currently fixed at 2"). -/
def get_population_cost (_ : PlayerWorkerManager) : Nat := 2

/-- `assign_worker_to_technology`: fails only when no worker is
available; otherwise initializes the technology entry if absent,
decrements `available_workers` and increments the entry.  The
`material_cost` argument is only logged by the source. -/
def assign_worker_to_technology (w : PlayerWorkerManager) (tech_name : String)
    (material_cost : Nat := 0) : PlayerWorkerManager × Bool :=
  let _ := material_cost
  if w.available_workers ≤ 0 then (w, false)
  else
    let tw :=
      if alistMem w.technology_workers tech_name then w.technology_workers
      else w.technology_workers ++ [(tech_name, 0)]
    ({ w with available_workers := w.available_workers - 1,
              technology_workers := alistBump tw tech_name }, true)

/-- `remove_worker_from_technology`. -/
def remove_worker_from_technology (w : PlayerWorkerManager) (tech_name : String) :
    PlayerWorkerManager × Bool :=
  if ¬ alistMem w.technology_workers tech_name ∨
      alistGetD w.technology_workers tech_name 0 ≤ 0 then
    (w, false)
  else
    ({ w with technology_workers := alistDrop1 w.technology_workers tech_name,
              available_workers := w.available_workers + 1 }, true)

/-- `get_workers_in_technology`. -/
def get_workers_in_technology (w : PlayerWorkerManager) (tech_name : String) : Nat :=
  alistGetD w.technology_workers tech_name 0

/-- `get_food_consumption`: sum of `abs(consumo)` over unoccupied groups. -/
def get_food_consumption (w : PlayerWorkerManager) : Nat :=
  w.groups.foldl (fun acc g => if ¬ g.occupied then acc + g.consumo.natAbs else acc) 0

/-- `get_available_workers`. -/
def get_available_workers (w : PlayerWorkerManager) : Nat :=
  w.available_workers

end PlayerWorkerManager

/-! ### The older monolithic board (`board.py`, class `PlayerBoard`)

`board.py` contains an older `PlayerBoard` with its own copies of the
population-group and worker-assignment logic.  Only the parts the claims
cite are embedded, under the `BoardPy` namespace. -/

namespace BoardPy

/-- Group-list part of `board.py`'s `_take_yellow_token_from_group`:
identical to the manager variant except that emptying a group sets
`occupied = False` ("MARCAR GRUPO COMO NO OCUPADO SI SE VACÍA"). -/
def takeTokenFromGroups : List YellowGroup → List YellowGroup × Bool
  | [] => ([], false)
  | g :: rest =>
    if g.occupied && g.tokens > 0 then
      (({ g with tokens := g.tokens - 1,
                 occupied := if g.tokens - 1 = 0 then false else g.occupied }) :: rest,
       true)
    else
      let res := takeTokenFromGroups rest
      (g :: res.1, res.2)

/-- `board.py` `get_population_cost`: `coste_nuevo` of the first
unoccupied group, 0 when every group is occupied. -/
def get_population_cost : List YellowGroup → Nat
  | [] => 0
  | g :: rest => if ¬ g.occupied then g.coste_nuevo else get_population_cost rest

/-- `board.py` `get_food_consumption`: `abs(consumo)` of the first
unoccupied group, 0 when every group is occupied. -/
def get_food_consumption : List YellowGroup → Nat
  | [] => 0
  | g :: rest => if ¬ g.occupied then g.consumo.natAbs else get_food_consumption rest

/-- The fields of `board.py`'s `PlayerBoard` used by its
`assign_worker_to_technology`: the yellow reserves and the key set of
`current_technologies` (only key membership is read). -/
structure WorkerState where
  groups : List YellowGroup
  available_workers : Nat
  technology_workers : List (String × Nat)
  current_technologies : List String
deriving Repr, DecidableEq

/-- `MAX_WORKERS_PER_TECH = 3  # TEMPORAL` in `board.py`. -/
def MAX_WORKERS_PER_TECH : Nat := 3

/-- `board.py` `assign_worker_to_technology`: requires an available
worker, the technology among `current_technologies`, and (when the
technology is already tracked) fewer than `MAX_WORKERS_PER_TECH`
assigned workers. -/
def assign_worker_to_technology (b : WorkerState) (tech_name : String) :
    WorkerState × Bool :=
  if b.available_workers ≤ 0 then (b, false)
  else if ¬ b.current_technologies.contains tech_name then (b, false)
  else if alistMem b.technology_workers tech_name ∧
      MAX_WORKERS_PER_TECH ≤ alistGetD b.technology_workers tech_name 0 then
    (b, false)
  else
    let tw :=
      if alistMem b.technology_workers tech_name then b.technology_workers
      else b.technology_workers ++ [(tech_name, 0)]
    ({ b with available_workers := b.available_workers - 1,
              technology_workers := alistBump tw tech_name }, true)

/-- Food-consumption step of `board.py`'s `complete_turn`
(`if food_consumption > 0: self.resources['food'] = max(0,
self.resources['food'] - food_consumption)`). -/
def completeTurnFoodStep (food : Int) (food_consumption : Nat) : Int :=
  if 0 < food_consumption then max 0 (food - food_consumption) else food

end BoardPy

/-! ### Cards (`card_classes.py`)

Card objects are immutable data; only the attributes the embedded
operations read are modelled.  Attributes a given Python card class does
not define (read through `hasattr` guards in the source) are taken as
the guard's fallback: production maps default to the zero map, action
grants to the defaults of `player_action_manager.py`. -/

/-- A catalog card: name, type tag (`card.card_type` as dispatched on by
the executor, e.g. `Farm` / `Mine` / `Temple` / `Library`), per-worker
production map, build cost, and the government action grants. -/
structure Card where
  name : String
  card_type : String
  production : Resources
  build_cost : Nat
  civil_actions : Nat
  military_actions : Nat
deriving Repr, DecidableEq

/-! ### Resource manager (`player_resource_manager.py`) -/

/-- One blue-token group of `blue_reserves['groups']`. -/
structure BlueGroup where
  tokens : Nat
  occupied : Bool
  corruption : Int
deriving Repr, DecidableEq

/-- State of `PlayerResourceManager`: current resources and the blue
token groups (the only parts of `blue_reserves` the claims touch). -/
structure PlayerResourceManager where
  resources : Resources
  blue_groups : List BlueGroup
deriving Repr, DecidableEq

namespace PlayerResourceManager

/-- Initial state from `PlayerResourceManager.__init__`. -/
def init : PlayerResourceManager :=
  { resources := Resources.init,
    blue_groups :=
      [ { tokens := 6, occupied := true, corruption := -2 },
        { tokens := 5, occupied := true, corruption := -4 },
        { tokens := 5, occupied := true, corruption := -6 } ] }

/-- `calculate_corruption_penalty`: sum of `abs(corruption)` over
unoccupied blue groups. -/
def calculate_corruption_penalty (rm : PlayerResourceManager) : Nat :=
  rm.blue_groups.foldl
    (fun acc g => if ¬ g.occupied then acc + g.corruption.natAbs else acc) 0

/-- One step of the `pay_corruption` loop body for a single resource:
given the current balance and the remaining amount, returns the new
balance and new remaining amount (`if remaining_corruption <= 0: break`,
then `if available > 0: lost = min(available, remaining)`). -/
def payStep (available remaining : Int) : Int × Int :=
  if remaining ≤ 0 then (available, remaining)
  else if 0 < available then
    let lost := min available remaining
    (available - lost, remaining - lost)
  else (available, remaining)

/-- `pay_corruption(amount)`: unrolled loop over the literal priority
list `['material', 'food', 'science', 'culture', 'happy']`; returns the
updated resources (`strength` is never in the list). -/
def pay_corruption (rm : PlayerResourceManager) (corruption_amount : Int) :
    PlayerResourceManager :=
  if corruption_amount ≤ 0 then rm
  else
    let r := rm.resources
    let s1 := payStep r.material corruption_amount
    let s2 := payStep r.food s1.2
    let s3 := payStep r.science s2.2
    let s4 := payStep r.culture s3.2
    let s5 := payStep r.happy s4.2
    { rm with resources :=
        { r with material := s1.1, food := s2.1, science := s3.1,
                 culture := s4.1, happy := s5.1 } }

/-- `spend_resources`: all-or-nothing spend.  The argument is the
key–value list of the Python cost dict: first every entry whose key is
a known resource is checked against the balance, then every such entry
is deducted. -/
def spend_resources (rm : PlayerResourceManager) (cost : List (String × Int)) :
    PlayerResourceManager × Bool :=
  if cost.any (fun p => Resources.hasKey p.1 && rm.resources.getKey p.1 < p.2) then
    (rm, false)
  else
    let newRes := cost.foldl
      (fun r p =>
        if Resources.hasKey p.1 then r.setKey p.1 (r.getKey p.1 - p.2) else r)
      rm.resources
    ({ rm with resources := newRes }, true)

/-- `add_resources` on the manager state: every entry whose key is a
known resource is added to the balance. -/
def add_resources (rm : PlayerResourceManager) (p : List (String × Int)) :
    PlayerResourceManager :=
  let newRes := p.foldl
    (fun r q =>
      if Resources.hasKey q.1 then r.setKey q.1 (r.getKey q.1 + q.2) else r)
    rm.resources
  { rm with resources := newRes }

end PlayerResourceManager

/-! ### Card manager (`player_card_manager.py`)

Collections of cards per player.  Cards are passed as objects here (the
string-name path of `_resolve_card` goes through the external
`CardLoader` collaborator); the `isinstance` class check of
`_resolve_card` has no counterpart because all card classes are merged
into the single `Card` structure.  A Python `raise ValueError(msg)`
becomes `Except.error msg`. -/

/-- State of `PlayerCardManager` (the `monuments` list is never touched
by the embedded operations and is omitted). -/
structure PlayerCardManager where
  production_buildings : List Card
  urban_buildings : List Card
  wonders : List Card
  hand_cards : List Card
  leader : Option Card
  government : Option Card
deriving Repr, DecidableEq

namespace PlayerCardManager

/-- The empty collection state (before `_load_initial_cards`, which
fills it from the external card catalog). -/
def empty : PlayerCardManager :=
  { production_buildings := [], urban_buildings := [], wonders := [],
    hand_cards := [], leader := none, government := none }

/-- `add_production_building`: rejects a duplicate name, else appends. -/
def add_production_building (cm : PlayerCardManager) (card : Card) :
    Except String PlayerCardManager :=
  if cm.production_buildings.any (fun b => b.name = card.name) then
    .error "already exists on this board"
  else
    .ok { cm with production_buildings := cm.production_buildings ++ [card] }

/-- `add_urban_building`: rejects a duplicate name, else appends. -/
def add_urban_building (cm : PlayerCardManager) (card : Card) :
    Except String PlayerCardManager :=
  if cm.urban_buildings.any (fun b => b.name = card.name) then
    .error "already exists on this board"
  else
    .ok { cm with urban_buildings := cm.urban_buildings ++ [card] }

/-- `add_wonder`: rejects a duplicate name, else appends. -/
def add_wonder (cm : PlayerCardManager) (card : Card) :
    Except String PlayerCardManager :=
  if cm.wonders.any (fun w => w.name = card.name) then
    .error "already exists on this board"
  else
    .ok { cm with wonders := cm.wonders ++ [card] }

/-- `set_leader` (card-object path): replaces any current leader with no
duplicate check. -/
def set_leader (cm : PlayerCardManager) (card : Card) : PlayerCardManager :=
  { cm with leader := some card }

/-- `set_government` (card-object path): replaces any current government
with no duplicate check. -/
def set_government (cm : PlayerCardManager) (card : Card) : PlayerCardManager :=
  { cm with government := some card }

/-- `add_card_to_hand` (card-object path): appends unconditionally. -/
def add_card_to_hand (cm : PlayerCardManager) (card : Card) : PlayerCardManager :=
  { cm with hand_cards := cm.hand_cards ++ [card] }

/-- `remove_card_from_hand`: removes the first card with the given name. -/
def remove_card_from_hand (cm : PlayerCardManager) (card_name : String) :
    PlayerCardManager × Bool :=
  let rec go : List Card → List Card × Bool
    | [] => ([], false)
    | c :: rest =>
      if c.name = card_name then (rest, true)
      else
        let res := go rest
        (c :: res.1, res.2)
  let res := go cm.hand_cards
  ({ cm with hand_cards := res.1 }, res.2)

/-- `get_all_buildings`: production buildings then urban buildings. -/
def get_all_buildings (cm : PlayerCardManager) : List Card :=
  cm.production_buildings ++ cm.urban_buildings

/-- `get_building_by_name`: linear scan over all buildings. -/
def get_building_by_name (cm : PlayerCardManager) (name : String) : Option Card :=
  cm.get_all_buildings.find? (fun b => b.name = name)

/-- `has_technology`: developed collections only (buildings, wonders,
leader, government) — hand cards do not count. -/
def has_technology (cm : PlayerCardManager) (tech_name : String) : Bool :=
  (cm.get_building_by_name tech_name).isSome ||
  cm.wonders.any (fun w => w.name = tech_name) ||
  (match cm.leader with | some l => l.name = tech_name | none => false) ||
  (match cm.government with | some g => g.name = tech_name | none => false)

/-- `has_card_in_hand`. -/
def has_card_in_hand (cm : PlayerCardManager) (card_name : String) : Bool :=
  cm.hand_cards.any (fun c => c.name = card_name)

/-- `has_card_anywhere`: developed or in hand. -/
def has_card_anywhere (cm : PlayerCardManager) (card_name : String) : Bool :=
  cm.has_technology card_name || cm.has_card_in_hand card_name

end PlayerCardManager

/-! ### Action manager (`player_action_manager.py`) -/

/-- State of `PlayerActionManager`. -/
structure PlayerActionManager where
  used_civil_actions : Int
  used_military_actions : Int
  civil_action_bonus : Int
  military_action_bonus : Int
  technologies_researched_this_turn : List String
deriving Repr, DecidableEq

namespace PlayerActionManager

/-- Initial state from `PlayerActionManager.__init__`. -/
def init : PlayerActionManager :=
  { used_civil_actions := 0, used_military_actions := 0,
    civil_action_bonus := 0, military_action_bonus := 0,
    technologies_researched_this_turn := [] }

/-- `get_total_civil_actions`: government grant (default 4) plus the
temporary bonus.  The leader term is dropped by the source's own
`hasattr` guard: the `Leader` card class defines no
`civil_action_bonus` attribute. -/
def get_total_civil_actions (am : PlayerActionManager) (cm : PlayerCardManager) : Int :=
  (match cm.government with
   | some g => (g.civil_actions : Int)
   | none => 4) + am.civil_action_bonus

/-- `get_total_military_actions`: government grant (default 2) plus the
temporary bonus (leader term dropped by the source's `hasattr` guard). -/
def get_total_military_actions (am : PlayerActionManager) (cm : PlayerCardManager) : Int :=
  (match cm.government with
   | some g => (g.military_actions : Int)
   | none => 2) + am.military_action_bonus

/-- `get_civil_actions_available`: `max(0, total - used)`. -/
def get_civil_actions_available (am : PlayerActionManager) (cm : PlayerCardManager) : Int :=
  max 0 (am.get_total_civil_actions cm - am.used_civil_actions)

/-- `get_military_actions_available`: `max(0, total - used)`. -/
def get_military_actions_available (am : PlayerActionManager) (cm : PlayerCardManager) : Int :=
  max 0 (am.get_total_military_actions cm - am.used_military_actions)

/-- `can_perform_civil_action`. -/
def can_perform_civil_action (am : PlayerActionManager) (cm : PlayerCardManager)
    (count : Int) : Bool :=
  count ≤ am.get_civil_actions_available cm

/-- `can_perform_military_action`. -/
def can_perform_military_action (am : PlayerActionManager) (cm : PlayerCardManager)
    (count : Int) : Bool :=
  count ≤ am.get_military_actions_available cm

/-- `reset_turn`: zeroes used counters, the temporary bonuses and the
per-turn technologies-researched log. -/
def reset_turn (_ : PlayerActionManager) : PlayerActionManager :=
  { used_civil_actions := 0, used_military_actions := 0,
    civil_action_bonus := 0, military_action_bonus := 0,
    technologies_researched_this_turn := [] }

/-- `add_technology_researched`: appends the name if not yet logged. -/
def add_technology_researched (am : PlayerActionManager) (tech_name : String) :
    PlayerActionManager :=
  if am.technologies_researched_this_turn.contains tech_name then am
  else { am with technologies_researched_this_turn :=
          am.technologies_researched_this_turn ++ [tech_name] }

end PlayerActionManager

/-! ### Modular player board (`player_board_new.py`) -/

/-- The modular `PlayerBoard`: one instance of each manager. -/
structure PlayerBoardNew where
  card_manager : PlayerCardManager
  resource_manager : PlayerResourceManager
  worker_manager : PlayerWorkerManager
  action_manager : PlayerActionManager
deriving Repr, DecidableEq

namespace PlayerBoardNew

/-- `get_population_cost` (delegates to the worker manager). -/
def get_population_cost (b : PlayerBoardNew) : Nat :=
  b.worker_manager.get_population_cost

/-- `increase_population` of `player_board_new.py`: requires food at
least `get_population_cost` and `available_workers > 0` (the source
reads the unemployed-worker count here, not the token groups), spends
the food, moves a yellow token to unemployment, and refunds the food
when the move fails. -/
def increase_population (b : PlayerBoardNew) : PlayerBoardNew × Bool :=
  let cost := b.worker_manager.get_population_cost
  let unemployed_workers := b.worker_manager.get_available_workers
  if (cost : Int) ≤ b.resource_manager.resources.food ∧ 0 < unemployed_workers then
    let sp := b.resource_manager.spend_resources [("food", (cost : Int))]
    if sp.2 then
      let mv := b.worker_manager.move_yellow_token_to_unemployment
      if mv.2 then
        ({ b with resource_manager := sp.1, worker_manager := mv.1 }, true)
      else
        ({ b with
            resource_manager := (sp.1).add_resources [("food", (cost : Int))],
            worker_manager := mv.1 }, false)
    else ({ b with resource_manager := sp.1 }, false)
  else (b, false)

/-- `calculate_production` of `player_resource_manager.py` (invoked
through the board facade): per-worker production of each building with
assigned workers, plus flat government production.  The leader term is
dropped by the source's `hasattr` guard (the `Leader` card class
defines no `production` attribute). -/
def calculate_production (wm : PlayerWorkerManager) (cm : PlayerCardManager) :
    Resources :=
  let base := wm.technology_workers.foldl
    (fun acc p =>
      if 0 < p.2 then
        match cm.get_building_by_name p.1 with
        | some b => acc.add (Resources.scale p.2 b.production)
        | none => acc
      else acc)
    Resources.zero
  match cm.government with
  | some g => base.add g.production
  | none => base

/-- Consumption step of `execute_production_phase`: when consumption is
positive, deduct `food_consumed = min(self.resources['food'],
consumption)` from the food stock. -/
def applyFoodConsumption (rm : PlayerResourceManager) (consumption : Nat) :
    PlayerResourceManager :=
  if 0 < consumption then
    { rm with resources :=
        { rm.resources with
            food := rm.resources.food - min rm.resources.food (consumption : Int) } }
  else rm

/-- `execute_production_phase` of `player_resource_manager.py`: compute
production, consumption and corruption, then apply production, apply the
food consumption clamped to the stock, then pay corruption. -/
def execute_production_phase (rm : PlayerResourceManager)
    (wm : PlayerWorkerManager) (cm : PlayerCardManager) : PlayerResourceManager :=
  let production := calculate_production wm cm
  let consumption := wm.get_food_consumption
  let corruption := rm.calculate_corruption_penalty
  let rm1 := rm.add_resources production.toList
  let rm2 := applyFoodConsumption rm1 consumption
  rm2.pay_corruption (corruption : Int)

/-- `complete_turn` of `player_board_new.py`: reset the action manager,
then run the production phase. -/
def complete_turn (b : PlayerBoardNew) : PlayerBoardNew :=
  let b1 := { b with action_manager := b.action_manager.reset_turn }
  { b1 with resource_manager :=
      execute_production_phase b1.resource_manager b1.worker_manager b1.card_manager }

end PlayerBoardNew

/-! ### Game state and action pipeline (`game_state.py`, `actions.py`)

`GameState` holds the player list, the current-turn pointer and the
global turn counter; the shared board contributes the visible civil-card
row read by the pipeline.  Python list indexing (negative indices
allowed, `IndexError` on out-of-range) is embedded by `pyGet` /
`pyListSet`; an operation that would raise returns `none`. -/

/-- Python `l[i]` on a list: non-negative indices from the front,
negative indices from the back, `none` for `IndexError`. -/
def pyGet {α : Type} (l : List α) (i : Int) : Option α :=
  if 0 ≤ i then l.get? i.toNat
  else
    let j := (l.length : Int) + i
    if 0 ≤ j then l.get? j.toNat else none

/-- Python `l[i] = x` with the same index resolution (returns the list
unchanged out of range; only reached after a successful `pyGet`). -/
def pyListSet {α : Type} (l : List α) (i : Int) (x : α) : List α :=
  if 0 ≤ i then l.set i.toNat x
  else
    let j := (l.length : Int) + i
    if 0 ≤ j then l.set j.toNat x else l

/-- A player (`player.py`): only the board reference matters to the
pipeline.  The deprecated `Player.resources` mirror is not modelled. -/
structure Player where
  board : PlayerBoardNew
deriving Repr, DecidableEq

/-- Top-level state (`game_state.py`) plus the visible civil-card row of
the shared board that the pipeline reads. -/
structure GameState where
  players : List Player
  current_turn : Nat
  turn_number : Nat
  visible_civil_cards : List (Option Card)
deriving Repr, DecidableEq

/-- A `GameAction` command (`actions.py`): the `parameters` dict entries
the pipeline reads become optional fields (`parameters.get(...)`), the
`number_of_actions_spent` dict becomes its two read keys with default 0. -/
structure GameAction where
  action_type : String
  card_position : Option Int
  card_name : Option String
  tech_name : Option String
  science_cost : Int
  civil_actions : Int
  military_actions : Int
  player_id : Int
deriving Repr, DecidableEq

/-- Structured result of `ActionExecutor.execute_action` (the `success`
flag and `error` message of the returned dict). -/
structure ExecResult where
  success : Bool
  error : String
deriving Repr, DecidableEq

namespace ActionValidator

/-- `_validate_take_card`.  Python `if not card_position or ...` details:
a missing key gives `None`; an out-of-bounds or empty slot rejects. -/
def validate_take_card (gs : GameState) (a : GameAction) : Option (Bool × String) :=
  match a.card_position with
  | none => some (false, "Posicion de carta invalida")
  | some pos =>
    if pos < 0 ∨ 13 ≤ pos then some (false, "Posicion de carta invalida")
    else if (gs.visible_civil_cards.length : Int) ≤ pos then
      some (false, "Posicion de carta fuera de rango")
    else
      match pyGet gs.visible_civil_cards pos with
      | some (some _) => some (true, "")
      | some none => some (false, "No hay carta en esa posicion")
      | none => none

/-- `_validate_increase_population`. -/
def validate_increase_population (pb : PlayerBoardNew) : Option (Bool × String) :=
  if ¬ pb.worker_manager.has_available_yellow_tokens then
    some (false, "No hay fichas amarillas disponibles para aumentar poblacion")
  else if pb.resource_manager.resources.food < (pb.get_population_cost : Int) then
    some (false, "Comida insuficiente para aumentar poblacion")
  else some (true, "")

/-- `_validate_build_building` (Python `if not card_name` also rejects
the empty string). -/
def validate_build_building (pb : PlayerBoardNew) (a : GameAction) :
    Option (Bool × String) :=
  match a.card_name with
  | none => some (false, "Nombre de carta requerido para construir")
  | some name =>
    if name = "" then some (false, "Nombre de carta requerido para construir")
    else if ¬ pb.card_manager.has_card_in_hand name then
      some (false, "Jugador no tiene la carta en mano")
    else some (true, "")

/-- `_validate_assign_worker`.  Every embedded card carries `build_cost`
(the `hasattr` guard holds for all `Building` instances). -/
def validate_assign_worker (pb : PlayerBoardNew) (a : GameAction) :
    Option (Bool × String) :=
  match a.tech_name with
  | none => some (false, "Nombre de tecnologia requerido")
  | some tech =>
    if tech = "" then some (false, "Nombre de tecnologia requerido")
    else if pb.worker_manager.get_available_workers ≤ 0 then
      some (false, "No hay trabajadores disponibles")
    else if ¬ pb.card_manager.has_technology tech then
      some (false, "Tecnologia no disponible en el tablero")
    else
      match pb.card_manager.get_building_by_name tech with
      | some b =>
        if pb.resource_manager.resources.material < (b.build_cost : Int) then
          some (false, "Materiales insuficientes para asignar trabajador")
        else some (true, "")
      | none => some (true, "")

/-- `_validate_research_technology`. -/
def validate_research_technology (pb : PlayerBoardNew) (a : GameAction) :
    Option (Bool × String) :=
  match a.card_name with
  | none => some (false, "Nombre de carta requerido para investigar")
  | some name =>
    if name = "" then some (false, "Nombre de carta requerido para investigar")
    else if ¬ pb.card_manager.has_card_in_hand name then
      some (false, "Carta no disponible en mano para investigar")
    else if pb.resource_manager.resources.science < a.science_cost then
      some (false, "Ciencia insuficiente")
    else if pb.card_manager.has_technology name then
      some (false, "Ya tiene la tecnologia desarrollada en el tablero")
    else some (true, "")

/-- `ActionValidator.validate_action`: look up the player (Python
indexing — `none` models the `IndexError` of a nonexistent player),
check the turn, the civil and military budgets, then the type-specific
rule.  `terminar_turno` is always legal.  The validator only reads
state.  Error messages keep the fixed part of the source's f-strings. -/
def validate_action (gs : GameState) (player_id : Int) (a : GameAction) :
    Option (Bool × String) :=
  match pyGet gs.players (player_id - 1) with
  | none => none
  | some player =>
    let pb := player.board
    if player_id - 1 ≠ (gs.current_turn : Int) then
      some (false, "No es el turno de este jugador")
    else if 0 < a.civil_actions ∧
        ¬ pb.action_manager.can_perform_civil_action pb.card_manager a.civil_actions then
      some (false, "No quedan acciones civiles suficientes")
    else if 0 < a.military_actions ∧
        ¬ pb.action_manager.can_perform_military_action pb.card_manager a.military_actions then
      some (false, "No quedan acciones militares suficientes")
    else if a.action_type = "tomar_carta" then validate_take_card gs a
    else if a.action_type = "aumentar_poblacion" then validate_increase_population pb
    else if a.action_type = "construir_edificio" then validate_build_building pb a
    else if a.action_type = "asignar_trabajador" then validate_assign_worker pb a
    else if a.action_type = "desarrollar_tecnologia" then validate_research_technology pb a
    else if a.action_type = "terminar_turno" then some (true, "")
    else some (false, "Tipo de accion desconocido")

end ActionValidator

namespace GameState

/-- `GameState.next_turn`: complete the current player's turn, advance
the pointer modulo the player count, and increment the global turn
counter when the pointer wraps to 0.  `none` models the `IndexError` /
`ZeroDivisionError` of an out-of-range pointer or an empty player list. -/
def next_turn (gs : GameState) : Option GameState :=
  if h : gs.current_turn < gs.players.length then
    let p := gs.players.get ⟨gs.current_turn, h⟩
    let p' : Player := { board := p.board.complete_turn }
    let new_turn := (gs.current_turn + 1) % gs.players.length
    some { gs with
      players := gs.players.set gs.current_turn p',
      current_turn := new_turn,
      turn_number := if new_turn = 0 then gs.turn_number + 1 else gs.turn_number }
  else none

end GameState

namespace ActionExecutor

/-- Replace player `pid`'s board (Python mutates the shared `Player`
object through `player.board`). -/
def setPlayerBoard (gs : GameState) (pid : Int) (pb : PlayerBoardNew) : GameState :=
  { gs with players := pyListSet gs.players (pid - 1) { board := pb } }

/-- Executor dispatch of a card into a collection, shared by the
take-card / build / research executors: `Farm` / `Mine` go to production
buildings, `Temple` / `Library` to urban buildings, anything else to the
hand; a `ValueError` (duplicate) falls back to the hand
(`except ValueError: add_card_to_hand`). -/
def addCardByType (cm : PlayerCardManager) (card : Card) :
    PlayerCardManager × Bool :=
  if card.card_type = "Farm" ∨ card.card_type = "Mine" then
    match cm.add_production_building card with
    | .ok cm' => (cm', true)
    | .error _ => (cm.add_card_to_hand card, false)
  else if card.card_type = "Temple" ∨ card.card_type = "Library" then
    match cm.add_urban_building card with
    | .ok cm' => (cm', true)
    | .error _ => (cm.add_card_to_hand card, false)
  else (cm.add_card_to_hand card, true)

/-- `_execute_take_card` (the later of the two definitions in the
source class body, which shadows the earlier one): take the card out of
the visible row, add it to the player's collections by type (falling
back to the hand on a duplicate), and log it as researched.  `none`
models the crashes of the invalid paths the validator excludes. -/
def execute_take_card (gs : GameState) (a : GameAction) :
    Option (GameState × ExecResult) :=
  match a.card_position with
  | none => none
  | some pos =>
    match pyGet gs.visible_civil_cards pos with
    | none => none
    | some none => none
    | some (some card) =>
      match pyGet gs.players (a.player_id - 1) with
      | none => none
      | some player =>
        let gs1 := { gs with
          visible_civil_cards := pyListSet gs.visible_civil_cards pos none }
        let pb := player.board
        let cm' := (addCardByType pb.card_manager card).1
        let pb' := { pb with
          card_manager := cm',
          action_manager := pb.action_manager.add_technology_researched card.name }
        some (setPlayerBoard gs1 a.player_id pb', { success := true, error := "" })

/-- `_execute_increase_population`: the executor reads the population
cost, spends the food itself, and then calls the board's
`increase_population` (which checks and spends the same cost again —
embedded exactly as written). -/
def execute_increase_population (gs : GameState) (a : GameAction) :
    Option (GameState × ExecResult) :=
  match pyGet gs.players (a.player_id - 1) with
  | none => none
  | some player =>
    let pb := player.board
    let cost := pb.get_population_cost
    if (cost : Int) ≤ pb.resource_manager.resources.food then
      let sp := pb.resource_manager.spend_resources [("food", (cost : Int))]
      if sp.2 then
        let inc := PlayerBoardNew.increase_population { pb with resource_manager := sp.1 }
        some (setPlayerBoard gs a.player_id inc.1, { success := inc.2, error := "" })
      else
        some (setPlayerBoard gs a.player_id { pb with resource_manager := sp.1 },
              { success := false, error := "" })
    else some (gs, { success := false, error := "" })

/-- `_execute_assign_worker`: resolve the building, deduct its
`build_cost` in materials when positive, then assign through the worker
manager. -/
def execute_assign_worker (gs : GameState) (a : GameAction) :
    Option (GameState × ExecResult) :=
  match a.tech_name with
  | none => none
  | some tech =>
    match pyGet gs.players (a.player_id - 1) with
    | none => none
    | some player =>
      let pb := player.board
      match pb.card_manager.get_building_by_name tech with
      | none => some (gs, { success := false, error := "" })
      | some building =>
        let material_cost := building.build_cost
        if 0 < material_cost then
          if (material_cost : Int) ≤ pb.resource_manager.resources.material then
            let sp := pb.resource_manager.spend_resources
              [("material", (material_cost : Int))]
            if sp.2 then
              let asg := PlayerWorkerManager.assign_worker_to_technology
                pb.worker_manager tech material_cost
              some (setPlayerBoard gs a.player_id
                      { pb with resource_manager := sp.1, worker_manager := asg.1 },
                    { success := asg.2, error := "" })
            else
              some (setPlayerBoard gs a.player_id { pb with resource_manager := sp.1 },
                    { success := false, error := "Fallo al gastar materiales" })
          else some (gs, { success := false, error := "Materiales insuficientes" })
        else
          let asg := PlayerWorkerManager.assign_worker_to_technology
            pb.worker_manager tech material_cost
          some (setPlayerBoard gs a.player_id { pb with worker_manager := asg.1 },
                { success := asg.2, error := "" })

/-- `_execute_build_building`: move the named card from the hand into
the collection for its type; on a duplicate `ValueError` the card goes
back to the hand and the action reports failure. -/
def execute_build_building (gs : GameState) (a : GameAction) :
    Option (GameState × ExecResult) :=
  match a.card_name with
  | none => none
  | some card_name =>
    match pyGet gs.players (a.player_id - 1) with
    | none => none
    | some player =>
      let pb := player.board
      match pb.card_manager.hand_cards.find? (fun c => c.name = card_name) with
      | none => some (gs, { success := false, error := "No posee la tecnologia" })
      | some building_card =>
        let cm1 := (pb.card_manager.remove_card_from_hand building_card.name).1
        let ad := addCardByType cm1 building_card
        some (setPlayerBoard gs a.player_id { pb with card_manager := ad.1 },
              { success := ad.2, error := "" })

/-- `_execute_research_technology`: spend the science, move the card
from the hand into the collection for its type, log it as researched;
refund the science when the card is missing or the add raises. -/
def execute_research_technology (gs : GameState) (a : GameAction) :
    Option (GameState × ExecResult) :=
  match a.card_name with
  | none => none
  | some card_name =>
    match pyGet gs.players (a.player_id - 1) with
    | none => none
    | some player =>
      let pb := player.board
      if a.science_cost ≤ pb.resource_manager.resources.science then
        let sp := pb.resource_manager.spend_resources
          [("science", a.science_cost)]
        if sp.2 then
          match pb.card_manager.hand_cards.find? (fun c => c.name = card_name) with
          | none =>
            let rm2 := (sp.1).add_resources [("science", a.science_cost)]
            some (setPlayerBoard gs a.player_id { pb with resource_manager := rm2 },
                  { success := false, error := "" })
          | some research_card =>
            let cm1 := (pb.card_manager.remove_card_from_hand research_card.name).1
            let ad := addCardByType cm1 research_card
            if ad.2 then
              let pb' := { pb with
                resource_manager := sp.1,
                card_manager := ad.1,
                action_manager := pb.action_manager.add_technology_researched card_name }
              some (setPlayerBoard gs a.player_id pb', { success := true, error := "" })
            else
              let rm2 := (sp.1).add_resources [("science", a.science_cost)]
              some (setPlayerBoard gs a.player_id
                      { pb with resource_manager := rm2, card_manager := ad.1 },
                    { success := false, error := "" })
        else some (setPlayerBoard gs a.player_id { pb with resource_manager := sp.1 },
                   { success := false, error := "" })
      else some (gs, { success := false, error := "Ciencia insuficiente" })

/-- `_execute_end_turn`: zero the used-action counters through the
board setters, then advance the game with `next_turn`. -/
def execute_end_turn (gs : GameState) (a : GameAction) :
    Option (GameState × ExecResult) :=
  match pyGet gs.players (a.player_id - 1) with
  | none => none
  | some player =>
    let pb := player.board
    let pb' := { pb with action_manager :=
        { pb.action_manager with used_civil_actions := 0, used_military_actions := 0 } }
    let gs1 := setPlayerBoard gs a.player_id pb'
    match gs1.next_turn with
    | none => none
    | some gs2 => some (gs2, { success := true, error := "" })

/-- `ActionExecutor.execute_action`: validate first and return the
unchanged state with the rejection on failure; otherwise charge the
action budget on the player's board and run the type-specific executor.
The bot counter updates (`bot.consume_civil_action`) belong to the
external bot collaborator and are outside the engine state. -/
def execute_action (gs : GameState) (a : GameAction) :
    Option (GameState × ExecResult) :=
  match ActionValidator.validate_action gs a.player_id a with
  | none => none
  | some (false, msg) => some (gs, { success := false, error := msg })
  | some (true, _) =>
    match pyGet gs.players (a.player_id - 1) with
    | none => none
    | some player =>
      let pb := player.board
      let pb1 :=
        if 0 < a.civil_actions then
          { pb with action_manager := { pb.action_manager with
              used_civil_actions := pb.action_manager.used_civil_actions + a.civil_actions } }
        else pb
      let pb2 :=
        if 0 < a.military_actions then
          { pb1 with action_manager := { pb1.action_manager with
              used_military_actions := pb1.action_manager.used_military_actions + a.military_actions } }
        else pb1
      let gs1 := setPlayerBoard gs a.player_id pb2
      if a.action_type = "tomar_carta" then execute_take_card gs1 a
      else if a.action_type = "aumentar_poblacion" then execute_increase_population gs1 a
      else if a.action_type = "asignar_trabajador" then execute_assign_worker gs1 a
      else if a.action_type = "construir_edificio" then execute_build_building gs1 a
      else if a.action_type = "desarrollar_tecnologia" then execute_research_technology gs1 a
      else if a.action_type = "terminar_turno" then execute_end_turn gs1 a
      else some (gs1, { success := false, error := "Tipo de accion no implementado" })

end ActionExecutor

/-! ### Derived quantities and concrete states used by the theorems -/

namespace PlayerWorkerManager

/-- Total tokens remaining in the population groups
(`sum(group['tokens'] for group in groups)`). -/
def sumTokens : List YellowGroup → Nat
  | [] => 0
  | g :: rest => g.tokens + sumTokens rest

/-- The conserved population quantity: tokens remaining in the groups,
plus available workers, plus workers assigned over all technologies. -/
def totalQuantity (w : PlayerWorkerManager) : Nat :=
  sumTokens w.groups + w.available_workers + alistSum w.technology_workers

end PlayerWorkerManager

/-- The worker operations of `PlayerWorkerManager` that move population
tokens and workers. -/
inductive WorkerOp where
  | increasePop : WorkerOp
  | assignWorker (tech_name : String) (material_cost : Nat) : WorkerOp
  | removeWorker (tech_name : String) : WorkerOp
deriving Repr, DecidableEq

/-- State reached by a worker operation (the manager component of the
corresponding method's result). -/
def applyWorkerOp (w : PlayerWorkerManager) : WorkerOp → PlayerWorkerManager
  | .increasePop => w.move_yellow_token_to_unemployment.1
  | .assignWorker t c => (w.assign_worker_to_technology t c).1
  | .removeWorker t => (w.remove_worker_from_technology t).1

/-- A modular player board whose card collections are empty (the real
initial collections come from the external card catalog; none of the
population or resource operations read them). -/
def boardNewBase : PlayerBoardNew :=
  { card_manager := PlayerCardManager.empty,
    resource_manager := PlayerResourceManager.init,
    worker_manager := PlayerWorkerManager.init,
    action_manager := PlayerActionManager.init }

/-- A concrete catalog card used by the duplicate-handling theorems. -/
def sampleCard : Card :=
  { name := "Alchemy", card_type := "Tech", production := Resources.zero,
    build_cost := 0, civil_actions := 4, military_actions := 2 }

/-- A card manager already holding `sampleCard` in the hand. -/
def cmWithSampleInHand : PlayerCardManager :=
  { PlayerCardManager.empty with hand_cards := [sampleCard] }

/-- A two-player game state at turn 0 of player 1, used to exercise the
rejection path of the pipeline. -/
def twoPlayerState : GameState :=
  { players := [{ board := boardNewBase }, { board := boardNewBase }],
    current_turn := 0, turn_number := 1, visible_civil_cards := [] }

/-- An end-turn command submitted by player 2. -/
def endTurnByPlayer2 : GameAction :=
  { action_type := "terminar_turno", card_position := none, card_name := none,
    tech_name := none, science_cost := 0, civil_actions := 0,
    military_actions := 0, player_id := 2 }

/-- Specification-side closed form for the corruption payment: charge
the five prioritized resources in the order material, food, science,
culture, happiness, each deduction clamped to the balance, leaving
strength untouched. -/
def corruptionSpec (r : Resources) (amount : Int) : Resources :=
  let d1 := min r.material amount
  let rem1 := amount - d1
  let d2 := min r.food rem1
  let rem2 := rem1 - d2
  let d3 := min r.science rem2
  let rem3 := rem2 - d3
  let d4 := min r.culture rem3
  let rem4 := rem3 - d4
  let d5 := min r.happy rem4
  { r with material := r.material - d1, food := r.food - d2,
           science := r.science - d3, culture := r.culture - d4,
           happy := r.happy - d5 }

/-- Total amount actually collected by the corruption payment (the sum
of the five clamped deductions). -/
def corruptionPaid (r : Resources) (amount : Int) : Int :=
  let d1 := min r.material amount
  let rem1 := amount - d1
  let d2 := min r.food rem1
  let rem2 := rem1 - d2
  let d3 := min r.science rem2
  let rem3 := rem2 - d3
  let d4 := min r.culture rem3
  let rem4 := rem3 - d4
  let d5 := min r.happy rem4
  d1 + d2 + d3 + d4 + d5

/-! ## Helper lemmas -/

theorem payStep_eq (a rem : Int) (ha : 0 ≤ a) (hrem : 0 ≤ rem) :
    PlayerResourceManager.payStep a rem = (a - min a rem, rem - min a rem) := by
  unfold PlayerResourceManager.payStep
  split_ifs <;> simp [Prod.ext_iff] <;> omega

theorem payStep_nonneg_fst (a rem : Int) (ha : 0 ≤ a) :
    0 ≤ (PlayerResourceManager.payStep a rem).1 := by
  unfold PlayerResourceManager.payStep
  split_ifs <;> simp <;> omega

theorem alistSum_append (l l' : List (String × Nat)) :
    alistSum (l ++ l') = alistSum l + alistSum l' := by
  induction l with
  | nil => simp [alistSum]
  | cons p rest ih => simp [alistSum, ih]; omega

theorem alistSum_bump_of_mem (l : List (String × Nat)) (k : String)
    (h : alistMem l k = true) : alistSum (alistBump l k) = alistSum l + 1 := by
  induction l with
  | nil => simp [alistMem] at h
  | cons p rest ih =>
    by_cases hk : p.1 = k
    · simp [alistBump, alistSum, hk]; omega
    · simp [alistMem, hk] at h
      simp [alistBump, alistSum, hk, ih h]
      omega

theorem alistBump_append_of_not_mem (l : List (String × Nat)) (k : String) (v : Nat)
    (h : alistMem l k = false) :
    alistBump (l ++ [(k, v)]) k = l ++ [(k, v + 1)] := by
  induction l with
  | nil => simp [alistBump]
  | cons p rest ih =>
    by_cases hk : p.1 = k
    · simp [alistMem, hk] at h
    · simp [alistMem, hk] at h
      simp [alistBump, hk, ih h]

theorem alistGetD_of_not_mem (l : List (String × Nat)) (k : String) (d : Nat)
    (h : alistMem l k = false) : alistGetD l k d = d := by
  induction l with
  | nil => simp [alistGetD]
  | cons p rest ih =>
    by_cases hk : p.1 = k
    · simp [alistMem, hk] at h
    · simp [alistMem, hk] at h
      simp [alistGetD, hk, ih h]

theorem alistGetD_append_of_not_mem (l l' : List (String × Nat)) (k : String) (d : Nat)
    (h : alistMem l k = false) : alistGetD (l ++ l') k d = alistGetD l' k d := by
  induction l with
  | nil => simp
  | cons p rest ih =>
    by_cases hk : p.1 = k
    · simp [alistMem, hk] at h
    · simp [alistMem, hk] at h
      simp [alistGetD, hk, ih h]

theorem alistGetD_bump_of_mem (l : List (String × Nat)) (k : String)
    (h : alistMem l k = true) :
    alistGetD (alistBump l k) k 0 = alistGetD l k 0 + 1 := by
  induction l with
  | nil => simp [alistMem] at h
  | cons p rest ih =>
    by_cases hk : p.1 = k
    · simp [alistBump, alistGetD, hk]
    · simp [alistMem, hk] at h
      simp [alistBump, alistGetD, hk, ih h]

theorem alistSum_drop1 (l : List (String × Nat)) (k : String)
    (h : 0 < alistGetD l k 0) :
    alistSum (alistDrop1 l k) + 1 = alistSum l := by
  induction l with
  | nil => simp [alistGetD] at h
  | cons p rest ih =>
    by_cases hk : p.1 = k
    · simp [alistGetD, hk] at h
      simp [alistDrop1, alistSum, hk]
      omega
    · simp [alistGetD, hk] at h
      simp [alistDrop1, alistSum, hk, ← ih h]
      omega

theorem takeTokenFromGroups_spec (gs : List YellowGroup) :
    ((PlayerWorkerManager.takeTokenFromGroups gs).2 = true →
      PlayerWorkerManager.sumTokens (PlayerWorkerManager.takeTokenFromGroups gs).1 + 1 =
        PlayerWorkerManager.sumTokens gs) ∧
    ((PlayerWorkerManager.takeTokenFromGroups gs).2 = false →
      (PlayerWorkerManager.takeTokenFromGroups gs).1 = gs) := by
  induction gs with
  | nil => simp [PlayerWorkerManager.takeTokenFromGroups]
  | cons g rest ih =>
    by_cases hg : g.occupied && g.tokens > 0
    · have htok : 0 < g.tokens := by
        have := hg
        simp only [Bool.and_eq_true, decide_eq_true_eq] at this
        exact this.2
      constructor
      · intro _
        simp [PlayerWorkerManager.takeTokenFromGroups, hg, PlayerWorkerManager.sumTokens]
        omega
      · intro hfalse
        simp [PlayerWorkerManager.takeTokenFromGroups, hg] at hfalse
    · obtain ⟨ih1, ih2⟩ := ih
      constructor
      · intro htrue
        simp only [PlayerWorkerManager.takeTokenFromGroups, hg, if_false] at htrue ⊢
        simp [PlayerWorkerManager.sumTokens]
        have := ih1 htrue
        omega
      · intro hfalse
        simp only [PlayerWorkerManager.takeTokenFromGroups, hg, if_false] at hfalse ⊢
        simp [ih2 hfalse]

theorem applyWorkerOp_totalQuantity (w : PlayerWorkerManager) (op : WorkerOp) :
    (applyWorkerOp w op).totalQuantity = w.totalQuantity := by
  cases op with
  | increasePop =>
    simp only [applyWorkerOp, PlayerWorkerManager.move_yellow_token_to_unemployment]
    by_cases hav : w.has_available_yellow_tokens
    · simp only [hav, not_true, if_false]
      obtain ⟨h1, h2⟩ := takeTokenFromGroups_spec w.groups
      rcases hok : (PlayerWorkerManager.takeTokenFromGroups w.groups).2 with _ | _
      · simp only [PlayerWorkerManager.take_yellow_token_from_group, hok]
        simp [PlayerWorkerManager.totalQuantity, h2 hok]
      · simp only [PlayerWorkerManager.take_yellow_token_from_group, hok]
        simp [PlayerWorkerManager.totalQuantity]
        have := h1 hok
        omega
    · simp [hav]
  | assignWorker t c =>
    simp only [applyWorkerOp, PlayerWorkerManager.assign_worker_to_technology]
    by_cases hav : w.available_workers ≤ 0
    · simp [hav]
    · simp only [hav, if_false]
      by_cases hm : alistMem w.technology_workers t
      · simp only [hm, if_true]
        simp [PlayerWorkerManager.totalQuantity, alistSum_bump_of_mem _ _ hm]
        omega
      · simp only [hm, Bool.false_eq_true, if_false]
        have hb := alistBump_append_of_not_mem w.technology_workers t 0
          (by simpa using hm)
        simp [PlayerWorkerManager.totalQuantity, hb, alistSum_append, alistSum]
        omega
  | removeWorker t =>
    simp only [applyWorkerOp, PlayerWorkerManager.remove_worker_from_technology]
    split
    · rfl
    · next hcond =>
      have hpos : 0 < alistGetD w.technology_workers t 0 := by
        rcases Nat.eq_zero_or_pos (alistGetD w.technology_workers t 0) with h0 | h
        · exact absurd (Or.inr (by omega)) hcond
        · exact h
      simp [PlayerWorkerManager.totalQuantity, ← alistSum_drop1 _ _ hpos]
      omega

theorem foldl_applyWorkerOp_totalQuantity (ops : List WorkerOp)
    (w : PlayerWorkerManager) :
    (ops.foldl applyWorkerOp w).totalQuantity = w.totalQuantity := by
  induction ops generalizing w with
  | nil => rfl
  | cons op rest ih =>
    simp only [List.foldl_cons]
    rw [ih, applyWorkerOp_totalQuantity]

/-! ## Claim theorems -/

theorem pay_corruption_eq_spec (rm : PlayerResourceManager) (amount : Int)
    (hm : 0 ≤ rm.resources.material) (hf : 0 ≤ rm.resources.food)
    (hs : 0 ≤ rm.resources.science) (hc : 0 ≤ rm.resources.culture)
    (hh : 0 ≤ rm.resources.happy) (ha : 0 ≤ amount) :
    rm.pay_corruption amount = { rm with resources := corruptionSpec rm.resources amount } := by
  unfold PlayerResourceManager.pay_corruption corruptionSpec
  by_cases h0 : amount ≤ 0
  · have : amount = 0 := le_antisymm h0 ha
    subst this
    simp only [if_pos (le_refl (0 : Int))]
    have e1 : min rm.resources.material 0 = 0 := by omega
    have e2 : min rm.resources.food 0 = 0 := by omega
    have e3 : min rm.resources.science 0 = 0 := by omega
    have e4 : min rm.resources.culture 0 = 0 := by omega
    have e5 : min rm.resources.happy 0 = 0 := by omega
    simp [e1, e2, e3, e4, e5]
  · rw [if_neg h0]
    have h1 : 0 ≤ amount - min rm.resources.material amount := by omega
    have h2 : 0 ≤ amount - min rm.resources.material amount -
        min rm.resources.food (amount - min rm.resources.material amount) := by omega
    have h3 : 0 ≤ amount - min rm.resources.material amount -
        min rm.resources.food (amount - min rm.resources.material amount) -
        min rm.resources.science (amount - min rm.resources.material amount -
          min rm.resources.food (amount - min rm.resources.material amount)) := by omega
    have h4 : 0 ≤ amount - min rm.resources.material amount -
        min rm.resources.food (amount - min rm.resources.material amount) -
        min rm.resources.science (amount - min rm.resources.material amount -
          min rm.resources.food (amount - min rm.resources.material amount)) -
        min rm.resources.culture (amount - min rm.resources.material amount -
          min rm.resources.food (amount - min rm.resources.material amount) -
          min rm.resources.science (amount - min rm.resources.material amount -
            min rm.resources.food (amount - min rm.resources.material amount))) := by
      omega
    simp only [payStep_eq _ _ hm ha, payStep_eq _ _ hf h1, payStep_eq _ _ hs h2,
      payStep_eq _ _ hc h3, payStep_eq _ _ hh h4]

theorem pay_corruption_food_nonneg (rm : PlayerResourceManager) (amount : Int)
    (hf : 0 ≤ rm.resources.food) :
    0 ≤ (rm.pay_corruption amount).resources.food := by
  unfold PlayerResourceManager.pay_corruption
  by_cases h0 : amount ≤ 0
  · simpa [h0] using hf
  · simp only [h0, if_false]
    exact payStep_nonneg_fst _ _ hf

/-- C1: population-token conservation.  On every player worker pool the
quantity (tokens remaining in the population groups) + available workers
+ (workers assigned over all technologies) is 24 in the initial state,
is preserved by each worker operation (population increase, worker
assignment, worker removal), and therefore equals 24 after any sequence
of such operations from the initial state. -/
theorem C1_population_token_conservation :
    PlayerWorkerManager.init.totalQuantity = 24 ∧
    (∀ (w : PlayerWorkerManager) (op : WorkerOp),
        (applyWorkerOp w op).totalQuantity = w.totalQuantity) ∧
    (∀ ops : List WorkerOp,
        (ops.foldl applyWorkerOp PlayerWorkerManager.init).totalQuantity = 24) := by
  refine ⟨by decide, applyWorkerOp_totalQuantity, ?_⟩
  intro ops
  rw [foldl_applyWorkerOp_totalQuantity]
  decide

/-- C3: corruption payment order.  For every resource state with
non-negative balances and every non-negative corruption amount,
`pay_corruption` deducts in the priority order material, food, science,
culture, happiness, each deduction clamped to the balance
(`corruptionSpec`); strength and the blue groups are never touched, no
balance becomes negative, and the total collected is the minimum of the
amount owed and the total of the five prioritized balances — any
remainder is dropped. -/
theorem C3_pay_corruption_priority (rm : PlayerResourceManager) (amount : Int)
    (hm : 0 ≤ rm.resources.material) (hf : 0 ≤ rm.resources.food)
    (hs : 0 ≤ rm.resources.science) (hc : 0 ≤ rm.resources.culture)
    (hh : 0 ≤ rm.resources.happy) (ha : 0 ≤ amount) :
    rm.pay_corruption amount
      = { rm with resources := corruptionSpec rm.resources amount } ∧
    (rm.pay_corruption amount).resources.strength = rm.resources.strength ∧
    (rm.pay_corruption amount).blue_groups = rm.blue_groups ∧
    0 ≤ (rm.pay_corruption amount).resources.material ∧
    0 ≤ (rm.pay_corruption amount).resources.food ∧
    0 ≤ (rm.pay_corruption amount).resources.science ∧
    0 ≤ (rm.pay_corruption amount).resources.culture ∧
    0 ≤ (rm.pay_corruption amount).resources.happy ∧
    corruptionPaid rm.resources amount
      = min (rm.resources.material + rm.resources.food + rm.resources.science +
             rm.resources.culture + rm.resources.happy) amount := by
  have hspec := pay_corruption_eq_spec rm amount hm hf hs hc hh ha
  refine ⟨hspec, ?_, ?_, ?_, ?_, ?_, ?_, ?_, ?_⟩ <;>
    simp only [hspec, corruptionSpec, corruptionPaid] <;> omega

/-- C3 witness: the theorem instantiated at the initial resource state
owing 9 corruption: material 2, then food 2, then science 2 are
exhausted, culture and happiness are 0, and the remaining 3 are dropped. -/
theorem C3_pay_corruption_priority_witness :
    (PlayerResourceManager.init.pay_corruption 9
        = { PlayerResourceManager.init with
              resources := corruptionSpec PlayerResourceManager.init.resources 9 }) ∧
    corruptionSpec PlayerResourceManager.init.resources 9
      = { food := 0, material := 0, science := 0, culture := 0, happy := 0,
          strength := 1 } ∧
    corruptionPaid PlayerResourceManager.init.resources 9 = 6 :=
  ⟨(C3_pay_corruption_priority PlayerResourceManager.init 9 (by decide) (by decide)
      (by decide) (by decide) (by decide) (by decide)).1,
   by decide, by decide⟩

/-- C7 (evaluation of the defect): taking the last token of a
population group in `player_worker_manager.py` leaves the group's
`occupied` flag `True` (the source assigns `True` where its own sibling
implementation in `board.py` assigns `False`), so after draining the
first group from the initial state the food consumption still reads 0
and the escalation mechanism never engages. -/
theorem C7_occupancy_flag_evaluation :
    PlayerWorkerManager.takeTokenFromGroups
        [{ tokens := 1, occupied := true, consumo := -1, coste_nuevo := 3 }]
      = ([{ tokens := 0, occupied := true, consumo := -1, coste_nuevo := 3 }], true) ∧
    BoardPy.takeTokenFromGroups
        [{ tokens := 1, occupied := true, consumo := -1, coste_nuevo := 3 }]
      = ([{ tokens := 0, occupied := false, consumo := -1, coste_nuevo := 3 }], true) ∧
    (PlayerWorkerManager.init.move_yellow_token_to_unemployment.1.move_yellow_token_to_unemployment.1.groups.head?
      = some { tokens := 0, occupied := true, consumo := -1, coste_nuevo := 3 }) ∧
    PlayerWorkerManager.init.move_yellow_token_to_unemployment.1.move_yellow_token_to_unemployment.1.get_food_consumption
      = 0 := by
  decide

theorem takeTokenFromGroups_of_any (gs : List YellowGroup)
    (h : gs.any (fun g => g.occupied && g.tokens > 0) = true) :
    (PlayerWorkerManager.takeTokenFromGroups gs).2 = true := by
  induction gs with
  | nil => simp at h
  | cons g rest ih =>
    by_cases hg : (g.occupied && decide (g.tokens > 0)) = true
    · simp [PlayerWorkerManager.takeTokenFromGroups, hg]
    · simp only [List.any_cons, Bool.or_eq_true] at h
      rcases h with h | h
      · exact absurd h hg
      · simp [PlayerWorkerManager.takeTokenFromGroups, hg, ih h]

theorem move_of_available (w : PlayerWorkerManager)
    (h : w.has_available_yellow_tokens = true) :
    w.move_yellow_token_to_unemployment.2 = true ∧
    w.move_yellow_token_to_unemployment.1.available_workers =
      w.available_workers + 1 := by
  have htake : (PlayerWorkerManager.takeTokenFromGroups w.groups).2 = true :=
    takeTokenFromGroups_of_any _
      (by simpa [PlayerWorkerManager.has_available_yellow_tokens] using h)
  unfold PlayerWorkerManager.move_yellow_token_to_unemployment
    PlayerWorkerManager.take_yellow_token_from_group
  simp [h, htake]

theorem spend_food_eq (rm : PlayerResourceManager) (c : Int)
    (h : c ≤ rm.resources.food) :
    rm.spend_resources [("food", c)] =
      ({ rm with resources := { rm.resources with food := rm.resources.food - c } },
       true) := by
  unfold PlayerResourceManager.spend_resources
  rw [if_neg ?hneg]
  case hneg => simp [Resources.hasKey, Resources.getKey]; omega
  simp [Resources.setKey, Resources.getKey, Resources.hasKey]

theorem assign_worker_success_spec (w : PlayerWorkerManager) (t : String) (c : Nat)
    (h : 0 < w.available_workers) :
    (w.assign_worker_to_technology t c).2 = true ∧
    (w.assign_worker_to_technology t c).1.available_workers =
      w.available_workers - 1 ∧
    (w.assign_worker_to_technology t c).1.get_workers_in_technology t =
      w.get_workers_in_technology t + 1 := by
  unfold PlayerWorkerManager.assign_worker_to_technology
  rw [if_neg (by omega)]
  refine ⟨rfl, rfl, ?_⟩
  unfold PlayerWorkerManager.get_workers_in_technology
  by_cases hm : alistMem w.technology_workers t = true
  · simp only [hm, if_true]
    exact alistGetD_bump_of_mem _ _ hm
  · have hm' : alistMem w.technology_workers t = false := by
      simpa using hm
    simp only [hm', Bool.false_eq_true, if_false]
    rw [alistBump_append_of_not_mem _ _ _ hm',
        alistGetD_append_of_not_mem _ _ _ _ hm',
        alistGetD_of_not_mem _ _ _ hm']
    simp [alistGetD]

/-- C9: budget reset at turn completion.  After `complete_turn` on the
modular player board, the used civil and military action counters are 0,
both temporary action bonuses are 0, and the per-turn
technologies-researched log is empty. -/
theorem C9_budget_reset_at_turn_completion (b : PlayerBoardNew) :
    b.complete_turn.action_manager.used_civil_actions = 0 ∧
    b.complete_turn.action_manager.used_military_actions = 0 ∧
    b.complete_turn.action_manager.civil_action_bonus = 0 ∧
    b.complete_turn.action_manager.military_action_bonus = 0 ∧
    b.complete_turn.action_manager.technologies_researched_this_turn = [] := by
  simp [PlayerBoardNew.complete_turn, PlayerActionManager.reset_turn]

theorem boardpy_assign_fail (b : BoardPy.WorkerState) (t : String)
    (h : b.available_workers = 0 ∨ b.current_technologies.contains t = false ∨
        (alistMem b.technology_workers t = true ∧
         3 ≤ alistGetD b.technology_workers t 0)) :
    BoardPy.assign_worker_to_technology b t = (b, false) := by
  unfold BoardPy.assign_worker_to_technology BoardPy.MAX_WORKERS_PER_TECH
  by_cases h0 : b.available_workers ≤ 0
  · rw [if_pos h0]
  · rw [if_neg h0]
    by_cases hcont : b.current_technologies.contains t = true
    · rw [if_neg (not_not_intro hcont)]
      rcases h with h | h | ⟨h1, h2⟩
      · omega
      · rw [hcont] at h; exact absurd h (by simp)
      · rw [if_pos ⟨h1, h2⟩]
    · rw [if_pos (by simpa using hcont)]

theorem boardpy_assign_success (b : BoardPy.WorkerState) (t : String)
    (h0 : 0 < b.available_workers) (hc : b.current_technologies.contains t = true)
    (hcap : alistGetD b.technology_workers t 0 < 3) :
    (BoardPy.assign_worker_to_technology b t).2 = true ∧
    (BoardPy.assign_worker_to_technology b t).1.available_workers =
      b.available_workers - 1 ∧
    alistGetD (BoardPy.assign_worker_to_technology b t).1.technology_workers t 0 =
      alistGetD b.technology_workers t 0 + 1 := by
  unfold BoardPy.assign_worker_to_technology BoardPy.MAX_WORKERS_PER_TECH
  rw [if_neg (by omega), if_neg (not_not_intro hc),
      if_neg (by rintro ⟨h1, h2⟩; omega)]
  refine ⟨rfl, rfl, ?_⟩
  by_cases hm : alistMem b.technology_workers t = true
  · simp only [hm, if_true]
    exact alistGetD_bump_of_mem _ _ hm
  · have hm' : alistMem b.technology_workers t = false := by simpa using hm
    simp only [hm', Bool.false_eq_true, if_false]
    rw [alistBump_append_of_not_mem _ _ _ hm',
        alistGetD_append_of_not_mem _ _ _ _ hm',
        alistGetD_of_not_mem _ _ _ hm']
    simp [alistGetD]

/-- C5 counterexample: the claim is false on the code.  In the modular
worker manager, assigning a worker to "Masonry" — a technology that is
not developed and not even tracked — succeeds from the initial state
(the claim requires failure with no change), and in the `board.py`
variant assigning a third worker to a technology that already has two
assigned succeeds as well (the claim requires the 3rd worker to be
rejected when the cap is 2). -/
theorem C5_counterexample :
    (PlayerWorkerManager.init.assign_worker_to_technology "Masonry" 0).2 = true ∧
    (PlayerWorkerManager.init.assign_worker_to_technology "Masonry" 0).1.available_workers
      = 0 ∧
    (PlayerWorkerManager.init.assign_worker_to_technology "Masonry" 0).1.get_workers_in_technology
      "Masonry" = 1 ∧
    (BoardPy.assign_worker_to_technology
        { groups := [], available_workers := 1,
          technology_workers := [("Bronze", 2)],
          current_technologies := ["Bronze"] } "Bronze").2 = true ∧
    alistGetD (BoardPy.assign_worker_to_technology
        { groups := [], available_workers := 1,
          technology_workers := [("Bronze", 2)],
          current_technologies := ["Bronze"] } "Bronze").1.technology_workers
      "Bronze" 0 = 3 := by
  decide

/-- C5 (amended): worker-assignment preconditions as implemented.  The
modular `assign_worker_to_technology` fails (state unchanged) exactly
when no worker is available; it checks neither development nor any
worker cap, and on success decrements `available_workers` and
increments the technology's count (initializing an untracked
technology at 0).  The `board.py` variant additionally fails when the
technology is not among `current_technologies` or when it already has
`MAX_WORKERS_PER_TECH = 3` workers (a fixed cap, not
government-dependent); below that cap a further worker — including a
3rd — is accepted. -/
theorem C5_assign_worker_amended :
    (∀ (w : PlayerWorkerManager) (t : String) (c : Nat),
        w.available_workers = 0 → w.assign_worker_to_technology t c = (w, false)) ∧
    (∀ (w : PlayerWorkerManager) (t : String) (c : Nat),
        0 < w.available_workers →
        (w.assign_worker_to_technology t c).2 = true ∧
        (w.assign_worker_to_technology t c).1.available_workers =
          w.available_workers - 1 ∧
        (w.assign_worker_to_technology t c).1.get_workers_in_technology t =
          w.get_workers_in_technology t + 1) ∧
    (∀ (b : BoardPy.WorkerState) (t : String),
        b.available_workers = 0 ∨ b.current_technologies.contains t = false ∨
          (alistMem b.technology_workers t = true ∧
           3 ≤ alistGetD b.technology_workers t 0) →
        BoardPy.assign_worker_to_technology b t = (b, false)) ∧
    (∀ (b : BoardPy.WorkerState) (t : String),
        0 < b.available_workers → b.current_technologies.contains t = true →
        alistGetD b.technology_workers t 0 < 3 →
        (BoardPy.assign_worker_to_technology b t).2 = true ∧
        (BoardPy.assign_worker_to_technology b t).1.available_workers =
          b.available_workers - 1 ∧
        alistGetD (BoardPy.assign_worker_to_technology b t).1.technology_workers t 0
          = alistGetD b.technology_workers t 0 + 1) := by
  refine ⟨?_, ?_, boardpy_assign_fail, boardpy_assign_success⟩
  · intro w t c h
    unfold PlayerWorkerManager.assign_worker_to_technology
    rw [if_pos (by omega)]
  · intro w t c h
    exact assign_worker_success_spec w t c h

/-- C5 witness: the amended theorem applied at the initial worker pool
(one available worker) and at a `board.py` state with two workers
already on Bronze. -/
theorem C5_assign_worker_amended_witness :
    0 < PlayerWorkerManager.init.available_workers ∧
    (PlayerWorkerManager.init.assign_worker_to_technology "Masonry" 0).2 = true ∧
    alistGetD (BoardPy.assign_worker_to_technology
        { groups := [], available_workers := 1,
          technology_workers := [("Bronze", 2)],
          current_technologies := ["Bronze"] } "Bronze").1.technology_workers
      "Bronze" 0 = 3 :=
  ⟨by decide,
   (C5_assign_worker_amended.2.1 PlayerWorkerManager.init "Masonry" 0 (by decide)).1,
   by
    have h := (C5_assign_worker_amended.2.2.2
        { groups := [], available_workers := 1,
          technology_workers := [("Bronze", 2)],
          current_technologies := ["Bronze"] } "Bronze"
        (by decide) (by decide) (by decide)).2.2
    simpa using h⟩

/-- C6 counterexample: the claim is false on the code.  On the initial
modular board the population cost is the fixed 2, not 3 (and the
`board.py` lookup returns 0 because every group starts occupied); the
initial board holds exactly 2 food and `increase_population` succeeds
with it, where the claim requires failure with 2 food. -/
theorem C6_counterexample :
    boardNewBase.get_population_cost = 2 ∧
    boardNewBase.resource_manager.resources.food = 2 ∧
    boardNewBase.increase_population.2 = true ∧
    boardNewBase.increase_population.1.resource_manager.resources.food = 0 ∧
    boardNewBase.increase_population.1.worker_manager.available_workers = 2 ∧
    BoardPy.get_population_cost PlayerWorkerManager.init.groups = 0 := by
  decide

/-- C6 (amended): population cost as implemented.  The modular worker
manager's `get_population_cost` returns the constant 2 for every state;
`board.py`'s variant returns the `coste_nuevo` field of the first
unoccupied group and 0 when every group is occupied.  Consequently
`increase_population` on the modular board fails (state unchanged) with
fewer than 2 food, and with exactly 2 food (given an unemployed worker
and an available token) succeeds, leaving food at 0 and
`available_workers` one higher. -/
theorem C6_population_cost_amended :
    (∀ w : PlayerWorkerManager, w.get_population_cost = 2) ∧
    (∀ b : PlayerBoardNew, b.resource_manager.resources.food < 2 →
        b.increase_population = (b, false)) ∧
    (∀ b : PlayerBoardNew, b.resource_manager.resources.food = 2 →
        0 < b.worker_manager.available_workers →
        b.worker_manager.has_available_yellow_tokens = true →
        b.increase_population.2 = true ∧
        b.increase_population.1.resource_manager.resources.food = 0 ∧
        b.increase_population.1.worker_manager.available_workers =
          b.worker_manager.available_workers + 1) ∧
    (∀ gs : List YellowGroup,
        BoardPy.get_population_cost gs =
          match gs.find? (fun g => ! g.occupied) with
          | some g => g.coste_nuevo
          | none => 0) := by
  refine ⟨fun w => rfl, ?_, ?_, ?_⟩
  · intro b hf
    simp only [PlayerBoardNew.increase_population,
      PlayerWorkerManager.get_population_cost, PlayerWorkerManager.get_available_workers]
    rw [if_neg (by rintro ⟨h1, -⟩; omega)]
  · intro b hf hav htok
    have hsp := spend_food_eq b.resource_manager 2 (by omega)
    obtain ⟨hm1, hm2⟩ := move_of_available b.worker_manager htok
    simp [PlayerBoardNew.increase_population, PlayerWorkerManager.get_population_cost,
      PlayerWorkerManager.get_available_workers, hsp, hm1, hm2, hf, hav]
  · intro gs
    induction gs with
    | nil => rfl
    | cons g rest ih =>
      by_cases hg : g.occupied
      · simpa [BoardPy.get_population_cost, hg, List.find?] using ih
      · simp [BoardPy.get_population_cost, hg, List.find?]

/-- C6 witness: the amended theorem applied at the initial modular
board, which holds exactly 2 food. -/
theorem C6_population_cost_amended_witness :
    boardNewBase.resource_manager.resources.food = 2 ∧
    boardNewBase.increase_population.2 = true :=
  ⟨by decide,
   (C6_population_cost_amended.2.2.1 boardNewBase (by decide) (by decide)
      (by decide)).1⟩

/-- C10: food consumption never drives food negative.  In the
production phase of the modular resource manager the food deducted for
consumption is `min(stock, consumption)`, so the stock stays
non-negative after the consumption step even when consumption exceeds
it (the shortfall is forgiven, no debt), and the same holds for
`board.py`'s `max(0, food - consumption)` clamp in `complete_turn`;
non-negative food going into the consumption step stays non-negative
through the whole phase. -/
theorem C10_food_consumption_clamped (rm : PlayerResourceManager)
    (wm : PlayerWorkerManager) (cm : PlayerCardManager) (c : Nat) (f : Int) :
    (0 < c →
      (PlayerBoardNew.applyFoodConsumption rm c).resources.food
        = rm.resources.food - min rm.resources.food (c : Int) ∧
      0 ≤ (PlayerBoardNew.applyFoodConsumption rm c).resources.food) ∧
    (c = 0 → PlayerBoardNew.applyFoodConsumption rm c = rm) ∧
    (0 ≤ rm.resources.food →
      0 ≤ (PlayerBoardNew.applyFoodConsumption rm c).resources.food) ∧
    (0 < c → 0 ≤ BoardPy.completeTurnFoodStep f c) ∧
    (0 ≤ f → BoardPy.completeTurnFoodStep f c = f - min f (c : Int) ∧
      0 ≤ BoardPy.completeTurnFoodStep f c) ∧
    (0 ≤ (rm.add_resources
            (PlayerBoardNew.calculate_production wm cm).toList).resources.food →
      0 ≤ (PlayerBoardNew.execute_production_phase rm wm cm).resources.food) := by
  have happly : ∀ (rm' : PlayerResourceManager) (c' : Nat),
      0 ≤ rm'.resources.food →
      0 ≤ (PlayerBoardNew.applyFoodConsumption rm' c').resources.food := by
    intro rm' c' hf0
    unfold PlayerBoardNew.applyFoodConsumption
    split_ifs
    · show 0 ≤ rm'.resources.food - min rm'.resources.food (c' : Int)
      omega
    · exact hf0
  refine ⟨?_, ?_, happly rm c, ?_, ?_, ?_⟩
  · intro hc
    unfold PlayerBoardNew.applyFoodConsumption
    rw [if_pos hc]
    refine ⟨rfl, ?_⟩
    show 0 ≤ rm.resources.food - min rm.resources.food (c : Int)
    omega
  · intro hc
    unfold PlayerBoardNew.applyFoodConsumption
    rw [if_neg (by omega)]
  · intro hc
    unfold BoardPy.completeTurnFoodStep
    rw [if_pos hc]
    exact le_max_left 0 _
  · intro hf0
    unfold BoardPy.completeTurnFoodStep
    split_ifs <;> constructor <;> omega
  · intro hfood
    unfold PlayerBoardNew.execute_production_phase
    exact pay_corruption_food_nonneg _ _ (happly _ _ hfood)

/-- C10 witness: the clamped consumption step evaluated at the initial
resource state with consumption 5 exceeding the 2 food in stock. -/
theorem C10_food_consumption_clamped_witness :
    0 < (5 : Nat) ∧
    (PlayerBoardNew.applyFoodConsumption PlayerResourceManager.init 5).resources.food
      = PlayerResourceManager.init.resources.food -
        min PlayerResourceManager.init.resources.food (5 : Int) :=
  ⟨by decide,
   ((C10_food_consumption_clamped PlayerResourceManager.init PlayerWorkerManager.init
      PlayerCardManager.empty 5 0).1 (by decide)).1⟩

/-- C2: rejection atomicity and idempotence.  Whenever the validator
rejects a submitted action, the executor returns the game state —
players with all their ledgers, pools, collections and counters, the
shared card row, the turn pointer and counter — exactly unchanged
together with the failure, and validating the same action against the
state left by the rejected submission yields the same rejection. -/
theorem C2_rejection_atomicity (gs : GameState) (a : GameAction) (msg : String)
    (h : ActionValidator.validate_action gs a.player_id a = some (false, msg)) :
    ActionExecutor.execute_action gs a
      = some (gs, { success := false, error := msg }) ∧
    (∀ (gs2 : GameState) (r : ExecResult),
        ActionExecutor.execute_action gs a = some (gs2, r) →
        gs2 = gs ∧ r.success = false ∧
        ActionValidator.validate_action gs2 a.player_id a = some (false, msg)) := by
  have hexec : ActionExecutor.execute_action gs a
      = some (gs, { success := false, error := msg }) := by
    unfold ActionExecutor.execute_action
    rw [h]
  refine ⟨hexec, ?_⟩
  intro gs2 r hr
  rw [hexec] at hr
  simp only [Option.some.injEq, Prod.mk.injEq] at hr
  obtain ⟨hgs, hres⟩ := hr
  subst hgs
  subst hres
  exact ⟨rfl, rfl, h⟩

/-- C2 witness: in a two-player game at player 1's turn, an action
submitted by player 2 is rejected as not their turn and the state is
returned unchanged. -/
theorem C2_rejection_atomicity_witness :
    ActionValidator.validate_action twoPlayerState endTurnByPlayer2.player_id
        endTurnByPlayer2
      = some (false, "No es el turno de este jugador") ∧
    ActionExecutor.execute_action twoPlayerState endTurnByPlayer2
      = some (twoPlayerState,
          { success := false, error := "No es el turno de este jugador" }) :=
  ⟨by decide,
   (C2_rejection_atomicity twoPlayerState endTurnByPlayer2
      "No es el turno de este jugador" (by decide)).1⟩

theorem execute_take_card_turn_number (gs : GameState) (a : GameAction)
    (gs2 : GameState) (r : ExecResult)
    (h : ActionExecutor.execute_take_card gs a = some (gs2, r)) :
    gs2.turn_number = gs.turn_number := by
  unfold ActionExecutor.execute_take_card at h
  repeat' split at h
  all_goals
    first
      | exact Option.noConfusion h
      | (simp only [Option.some.injEq, Prod.mk.injEq] at h
         rw [← h.1]
         try rfl)

theorem execute_increase_population_turn_number (gs : GameState) (a : GameAction)
    (gs2 : GameState) (r : ExecResult)
    (h : ActionExecutor.execute_increase_population gs a = some (gs2, r)) :
    gs2.turn_number = gs.turn_number := by
  unfold ActionExecutor.execute_increase_population at h
  repeat' first
    | split at h
    | simp only [] at h
  all_goals
    first
      | exact Option.noConfusion h
      | (simp only [Option.some.injEq, Prod.mk.injEq] at h
         rw [← h.1]
         try rfl)

theorem execute_assign_worker_turn_number (gs : GameState) (a : GameAction)
    (gs2 : GameState) (r : ExecResult)
    (h : ActionExecutor.execute_assign_worker gs a = some (gs2, r)) :
    gs2.turn_number = gs.turn_number := by
  unfold ActionExecutor.execute_assign_worker at h
  repeat' first
    | split at h
    | simp only [] at h
  all_goals
    first
      | exact Option.noConfusion h
      | (simp only [Option.some.injEq, Prod.mk.injEq] at h
         rw [← h.1]
         try rfl)

theorem execute_build_building_turn_number (gs : GameState) (a : GameAction)
    (gs2 : GameState) (r : ExecResult)
    (h : ActionExecutor.execute_build_building gs a = some (gs2, r)) :
    gs2.turn_number = gs.turn_number := by
  unfold ActionExecutor.execute_build_building at h
  repeat' first
    | split at h
    | simp only [] at h
  all_goals
    first
      | exact Option.noConfusion h
      | (simp only [Option.some.injEq, Prod.mk.injEq] at h
         rw [← h.1]
         try rfl)

theorem execute_research_technology_turn_number (gs : GameState) (a : GameAction)
    (gs2 : GameState) (r : ExecResult)
    (h : ActionExecutor.execute_research_technology gs a = some (gs2, r)) :
    gs2.turn_number = gs.turn_number := by
  unfold ActionExecutor.execute_research_technology at h
  repeat' first
    | split at h
    | simp only [] at h
  all_goals
    first
      | exact Option.noConfusion h
      | (simp only [Option.some.injEq, Prod.mk.injEq] at h
         rw [← h.1]
         try rfl)

theorem execute_action_preserves_turn_number (gs : GameState) (a : GameAction)
    (gs2 : GameState) (r : ExecResult)
    (hne : a.action_type ≠ "terminar_turno")
    (h : ActionExecutor.execute_action gs a = some (gs2, r)) :
    gs2.turn_number = gs.turn_number := by
  unfold ActionExecutor.execute_action at h
  split at h
  · exact Option.noConfusion h
  · simp only [Option.some.injEq, Prod.mk.injEq] at h
    rw [← h.1]
  · split at h
    · exact Option.noConfusion h
    · simp only [] at h
      split_ifs at h
      all_goals
        first
          | exact absurd (by assumption) hne
          | exact (execute_take_card_turn_number _ _ _ _ h).trans rfl
          | exact (execute_increase_population_turn_number _ _ _ _ h).trans rfl
          | exact (execute_assign_worker_turn_number _ _ _ _ h).trans rfl
          | exact (execute_build_building_turn_number _ _ _ _ h).trans rfl
          | exact (execute_research_technology_turn_number _ _ _ _ h).trans rfl
          | (simp only [Option.some.injEq, Prod.mk.injEq] at h
             rw [← h.1]
             try rfl)

/-- C4: turn rotation.  With at least one player and an in-range turn
pointer, `next_turn` replaces the current player's board by its
`complete_turn` result (all other players and the shared card row
untouched), advances the pointer to `(old + 1) mod n`, and increments
the global turn counter exactly when the new pointer wraps to player
index 0; no non-`terminar_turno` action submitted through the executor
changes the global turn counter. -/
theorem C4_turn_rotation (gs : GameState) (h : gs.current_turn < gs.players.length) :
    (∃ gs', gs.next_turn = some gs' ∧
      gs'.players.length = gs.players.length ∧
      gs'.players.get? gs.current_turn =
        (gs.players.get? gs.current_turn).map
          (fun p => { board := p.board.complete_turn }) ∧
      (∀ i, i ≠ gs.current_turn → gs'.players.get? i = gs.players.get? i) ∧
      gs'.current_turn = (gs.current_turn + 1) % gs.players.length ∧
      (gs'.current_turn = 0 → gs'.turn_number = gs.turn_number + 1) ∧
      (gs'.current_turn ≠ 0 → gs'.turn_number = gs.turn_number) ∧
      gs'.visible_civil_cards = gs.visible_civil_cards) ∧
    (∀ (a : GameAction) (gs2 : GameState) (r : ExecResult),
        a.action_type ≠ "terminar_turno" →
        ActionExecutor.execute_action gs a = some (gs2, r) →
        gs2.turn_number = gs.turn_number) := by
  refine ⟨?_, fun a gs2 r hne hex =>
    execute_action_preserves_turn_number gs a gs2 r hne hex⟩
  unfold GameState.next_turn
  rw [dif_pos h]
  refine ⟨_, rfl, by simp, ?_, ?_, rfl, ?_, ?_, rfl⟩
  · rw [List.get?_set_eq_of_lt _ h, List.get?_eq_get h]
    rfl
  · intro i hi
    exact List.get?_set_ne _ _ (fun hcontra => hi hcontra.symm)
  · intro hz
    simp only [hz]
    rw [if_pos]
    exact hz
  · intro hz
    simp only []
    rw [if_neg hz]

/-- C4 witness: turn rotation applied to the concrete two-player state
at player 1's turn. -/
theorem C4_turn_rotation_witness :
    twoPlayerState.current_turn < twoPlayerState.players.length ∧
    (∃ gs', twoPlayerState.next_turn = some gs' ∧
      gs'.players.length = twoPlayerState.players.length ∧
      gs'.players.get? twoPlayerState.current_turn =
        (twoPlayerState.players.get? twoPlayerState.current_turn).map
          (fun p => { board := p.board.complete_turn }) ∧
      (∀ i, i ≠ twoPlayerState.current_turn →
        gs'.players.get? i = twoPlayerState.players.get? i) ∧
      gs'.current_turn =
        (twoPlayerState.current_turn + 1) % twoPlayerState.players.length ∧
      (gs'.current_turn = 0 → gs'.turn_number = twoPlayerState.turn_number + 1) ∧
      (gs'.current_turn ≠ 0 → gs'.turn_number = twoPlayerState.turn_number) ∧
      gs'.visible_civil_cards = twoPlayerState.visible_civil_cards) :=
  ⟨by decide, (C4_turn_rotation twoPlayerState (by decide)).1⟩

/-- C8 counterexample: the claim is false on the code.  With "Alchemy"
already in the hand, `add_card_to_hand` appends a second card of the
same name and reports no error, where the claim requires a
DuplicateCard failure with the collection unchanged. -/
theorem C8_counterexample :
    cmWithSampleInHand.has_card_in_hand "Alchemy" = true ∧
    (cmWithSampleInHand.add_card_to_hand sampleCard).hand_cards
      = [sampleCard, sampleCard] ∧
    ((cmWithSampleInHand.add_card_to_hand sampleCard).hand_cards.filter
        (fun c => c.name = "Alchemy")).length = 2 := by
  decide

/-- C8 (amended): duplicate handling as implemented.  Only the three
collection adds — `add_production_building`, `add_urban_building`,
`add_wonder` — reject a duplicate name (raising, with the collection
unchanged); `set_leader` and `set_government` silently replace the
current card with no duplicate check, and `add_card_to_hand` appends
unconditionally even when a card of the same name is already in the
hand. -/
theorem C8_duplicate_handling_amended :
    (∀ (cm : PlayerCardManager) (c : Card),
        (cm.production_buildings.any (fun b => b.name = c.name) = true →
          cm.add_production_building c = .error "already exists on this board") ∧
        (cm.production_buildings.any (fun b => b.name = c.name) = false →
          cm.add_production_building c =
            .ok { cm with production_buildings := cm.production_buildings ++ [c] })) ∧
    (∀ (cm : PlayerCardManager) (c : Card),
        (cm.urban_buildings.any (fun b => b.name = c.name) = true →
          cm.add_urban_building c = .error "already exists on this board") ∧
        (cm.urban_buildings.any (fun b => b.name = c.name) = false →
          cm.add_urban_building c =
            .ok { cm with urban_buildings := cm.urban_buildings ++ [c] })) ∧
    (∀ (cm : PlayerCardManager) (c : Card),
        (cm.wonders.any (fun w => w.name = c.name) = true →
          cm.add_wonder c = .error "already exists on this board") ∧
        (cm.wonders.any (fun w => w.name = c.name) = false →
          cm.add_wonder c = .ok { cm with wonders := cm.wonders ++ [c] })) ∧
    (∀ (cm : PlayerCardManager) (c : Card),
        cm.set_leader c = { cm with leader := some c }) ∧
    (∀ (cm : PlayerCardManager) (c : Card),
        cm.set_government c = { cm with government := some c }) ∧
    (∀ (cm : PlayerCardManager) (c : Card),
        cm.add_card_to_hand c = { cm with hand_cards := cm.hand_cards ++ [c] }) := by
  refine ⟨?_, ?_, ?_, fun cm c => rfl, fun cm c => rfl, fun cm c => rfl⟩ <;>
    intro cm c <;> constructor <;> intro h <;>
    simp [PlayerCardManager.add_production_building,
      PlayerCardManager.add_urban_building, PlayerCardManager.add_wonder, h]

/-- C8 witness: the amended theorem applied to a board already holding
`sampleCard` among its production buildings. -/
theorem C8_duplicate_handling_amended_witness :
    ({ PlayerCardManager.empty with
        production_buildings := [sampleCard] } : PlayerCardManager).production_buildings.any
      (fun b => b.name = sampleCard.name) = true ∧
    PlayerCardManager.add_production_building
        { PlayerCardManager.empty with production_buildings := [sampleCard] } sampleCard
      = .error "already exists on this board" :=
  ⟨by decide,
   (C8_duplicate_handling_amended.1
      { PlayerCardManager.empty with production_buildings := [sampleCard] }
      sampleCard).1 (by decide)⟩

end TTA
